import Mathlib

/-!
Shallow embedding of the response-normalization and error-unification core of
the `machinebox` Rust client SDK, together with theorems checking the
specification's claims about it.

Conventions of the embedding:
* Rust `Result<T, Error>` becomes `Except Error T` (named `MBResult`).
* JSON documents are modelled by the inductive `Json`; `serde_json`
  deserialization of each wire struct is modelled by a `fromJson` function
  whose behaviour mirrors the struct's serde attributes field by field
  (`#[serde(default)]` and `Option` fields tolerate absence, all other
  fields are mandatory).
* HTTP exchanges are modelled by their observable outcome: either a
  transport-level failure (carried as an opaque string, standing for the
  underlying `reqwest::Error`) or a response with a numeric status code and
  a body.  Each transport helper of `src/utils.rs` is a function of that
  outcome, reproducing the helper's status check and error construction.
* Rust panics are modelled by `Option`: a conversion that can panic returns
  `none` exactly where the Rust code would panic.
* `f64` payload values are carried opaquely (the SDK never computes with
  them, it only moves them), as integers wrapped in `F64`.
-/

/-- Model of a JSON document, the input to the serde deserialization layer. -/
inductive Json where
  | null : Json
  | bool (b : Bool) : Json
  | num (n : Int) : Json
  | str (s : String) : Json
  | arr (elems : List Json) : Json
  | obj (fields : List (String × Json)) : Json

mutual

/-- Serialization of a JSON document back to text, used to connect raw
response-body strings with the envelope they denote.  Escaping of special
characters inside strings is not modelled; it is only applied to texts
without them. -/
def Json.render : Json → String
  | .null => "null"
  | .bool b => cond b "true" "false"
  | .num n => toString n
  | .str s => "\"" ++ s ++ "\""
  | .arr elems => "[" ++ Json.renderElems elems ++ "]"
  | .obj fields => "\x7b" ++ Json.renderFields fields ++ "\x7d"

/-- Comma-separated rendering of JSON array elements. -/
def Json.renderElems : List Json → String
  | [] => ""
  | [j] => j.render
  | j :: rest => j.render ++ "," ++ Json.renderElems rest

/-- Comma-separated rendering of JSON object fields. -/
def Json.renderFields : List (String × Json) → String
  | [] => ""
  | [(k, v)] => "\"" ++ k ++ "\":" ++ v.render
  | (k, v) :: rest => "\"" ++ k ++ "\":" ++ v.render ++ "," ++ Json.renderFields rest

end

/-- Error kind of `src/src/lib.rs` (`enum Kind`): transport failure
(`Reqwest`), decode failure (`Serialization`), service-reported failure
(`Machinebox`), and local I/O failure (`Io`, here `IoError` to keep the
mechanised name neutral).  The underlying library errors are carried as
opaque strings. -/
inductive Kind where
  | Reqwest (e : String) : Kind
  | Serialization (e : String) : Kind
  | Machinebox (s : String) : Kind
  | IoError (e : String) : Kind
deriving DecidableEq

/-- Error struct of `src/src/lib.rs` (`pub struct Error { kind: Kind }`). -/
structure Error where
  kind : Kind
deriving DecidableEq

/-- Rust `type Result<T> = std::result::Result<T, Error>` of `src/src/lib.rs`. -/
abbrev MBResult (α : Type) := Except Error α

/-! ### Serde field-decoding helpers

These model how `#[derive(Deserialize)]` treats each field of a wire struct:
a field without attributes is mandatory, an `Option` field (or a field with
`#[serde(default)]`) defaults when absent, and a `Vec` field with
`#[serde(default)]` defaults to the empty list when absent. -/

/-- Mandatory `bool` field: absent or non-boolean input is a decode error. -/
def reqBoolField (fields : List (String × Json)) (k : String) : Except String Bool :=
  match fields.lookup k with
  | some (Json.bool b) => .ok b
  | some _ => .error ("invalid type for field " ++ k)
  | none => .error ("missing field " ++ k)

/-- Mandatory `String` field. -/
def reqStringField (fields : List (String × Json)) (k : String) : Except String String :=
  match fields.lookup k with
  | some (Json.str s) => .ok s
  | some _ => .error ("invalid type for field " ++ k)
  | none => .error ("missing field " ++ k)

/-- Mandatory unsigned integer field (`u64`): negative numbers are rejected. -/
def reqNatField (fields : List (String × Json)) (k : String) : Except String Nat :=
  match fields.lookup k with
  | some (Json.num n) => if n < 0 then .error ("invalid value for field " ++ k) else .ok n.toNat
  | some _ => .error ("invalid type for field " ++ k)
  | none => .error ("missing field " ++ k)

/-- Optional `Option<String>` field: absent or `null` becomes `none`. -/
def optStringField (fields : List (String × Json)) (k : String) :
    Except String (Option String) :=
  match fields.lookup k with
  | none => .ok none
  | some Json.null => .ok none
  | some (Json.str s) => .ok (some s)
  | some _ => .error ("invalid type for field " ++ k)

/-- Optional integer field (`Option<i64>` / `Option<isize>`). -/
def optIntField (fields : List (String × Json)) (k : String) :
    Except String (Option Int) :=
  match fields.lookup k with
  | none => .ok none
  | some Json.null => .ok none
  | some (Json.num n) => .ok (some n)
  | some _ => .error ("invalid type for field " ++ k)

/-- List field with `#[serde(default)]`: absent defaults to `[]`, present
input must be an array of well-formed elements. -/
def listField {α : Type} (dec : Json → Except String α)
    (fields : List (String × Json)) (k : String) : Except String (List α) :=
  match fields.lookup k with
  | none => .ok []
  | some (Json.arr xs) => xs.mapM dec
  | some _ => .error ("invalid type for field " ++ k)

/-- Mandatory list field (no `#[serde(default)]`): absent is a decode error. -/
def reqListField {α : Type} (dec : Json → Except String α)
    (fields : List (String × Json)) (k : String) : Except String (List α) :=
  match fields.lookup k with
  | none => .error ("missing field " ++ k)
  | some (Json.arr xs) => xs.mapM dec
  | some _ => .error ("invalid type for field " ++ k)

/-! ### The generic acknowledgement envelope (`src/src/utils.rs`) -/

/-- Wire struct `RawBoxResponse` of `src/src/utils.rs`: a mandatory
`success` flag and a defaulted optional `error` string. -/
structure RawBoxResponse where
  success : Bool
  error : Option String
deriving DecidableEq

/-- Serde deserialization of `RawBoxResponse`. -/
def RawBoxResponse.fromJson : Json → Except String RawBoxResponse
  | Json.obj fields => do
    let s ← reqBoolField fields "success"
    let e ← optStringField fields "error"
    pure { success := s, error := e }
  | _ => .error "invalid type, expected object"

/-- Conversion `impl Into<Result<()>> for RawBoxResponse` of
`src/src/utils.rs` lines 17-31. -/
def RawBoxResponse.intoResult (r : RawBoxResponse) : MBResult Unit :=
  if r.success then
    .ok ()
  else
    let s := match r.error with
      | some s => s
      | none => "Request failed"
    .error { kind := Kind.Machinebox s }

/-- Model of `serde_json::from_str(&raw)?`: a serde failure is converted by
`From<serde_json::Error> for Error` into the `Serialization` kind. -/
def from_str {α : Type} (dec : Json → Except String α) (j : Json) : MBResult α :=
  match dec j with
  | .ok a => .ok a
  | .error e => .error { kind := Kind.Serialization e }

/-! ### Facebox wire and domain types (`src/src/facebox/types.rs`) -/

/-- Opaque carrier for `f64` payload values: the SDK moves them but never
computes with them, so only identity of the carried value matters. -/
structure F64 where
  bits : Int
deriving DecidableEq

/-- Rectangle around a detected face. -/
structure Rect where
  top : Int
  left : Int
  width : Int
  height : Int
deriving DecidableEq

/-- A detected face. -/
structure Face where
  rect : Rect
  id : Option String
  name : Option String
  matched : Bool
  confidence : F64
deriving DecidableEq

/-- A face similar to a search target. -/
structure Similar where
  id : String
  name : String
deriving DecidableEq

/-- Serde deserialization of `Similar` (both fields mandatory). -/
def Similar.fromJson : Json → Except String Similar
  | Json.obj fields => do
    let i ← reqStringField fields "id"
    let n ← reqStringField fields "name"
    pure { id := i, name := n }
  | _ => .error "invalid type, expected object"

/-- Wire struct `SimilarResponseFull`: mandatory `success`, defaulted
`error` and defaulted `similar` list. -/
structure SimilarResponseFull where
  success : Bool
  error : Option String
  similar : List Similar
deriving DecidableEq

/-- Serde deserialization of `SimilarResponseFull`. -/
def SimilarResponseFull.fromJson : Json → Except String SimilarResponseFull
  | Json.obj fields => do
    let s ← reqBoolField fields "success"
    let e ← optStringField fields "error"
    let sim ← listField Similar.fromJson fields "similar"
    pure { success := s, error := e, similar := sim }
  | _ => .error "invalid type, expected object"

/-- Caller-facing domain value for `similar`. -/
structure SimilarResponse where
  similar : List Similar
deriving DecidableEq

/-- Conversion `impl Into<Result<SimilarResponse>> for SimilarResponseFull`. -/
def SimilarResponseFull.intoResult (r : SimilarResponseFull) : MBResult SimilarResponse :=
  if r.success then
    .ok { similar := r.similar }
  else
    let s := match r.error with
      | some s => s
      | none => "Request failed"
    .error { kind := Kind.Machinebox s }

/-- Wire struct `CheckResponseFull` of `src/src/facebox/types.rs`:
mandatory `success`, defaulted `error` and defaulted `faces` list. -/
structure CheckResponseFull where
  success : Bool
  error : Option String
  faces : List Face
deriving DecidableEq

/-- Caller-facing domain value for facebox `check`. -/
structure CheckResponse where
  faces : List Face
deriving DecidableEq

/-- Conversion `impl Into<Result<CheckResponse>> for CheckResponseFull` of
`src/src/facebox/types.rs` lines 98-112. -/
def CheckResponseFull.intoResult (r : CheckResponseFull) : MBResult CheckResponse :=
  if r.success then
    .ok { faces := r.faces }
  else
    let s := match r.error with
      | some s => s
      | none => "Request failed"
    .error { kind := Kind.Machinebox s }

/-! ### Videobox wire and domain types (`src/src/videobox/types.rs`) -/

/-- Wire struct `VideoResponse`: `success` and `id` are mandatory; every
other field is optional and defaults when absent. -/
structure VideoResponse where
  success : Bool
  error : Option String
  id : String
  status : Option String
  download_total : Option Int
  download_complete : Option Int
  download_complete_estimate : Option String
  frames_count : Option Int
  frames_complete : Option Int
  last_frame_base64 : Option String
  milliseconds_complete : Option Int
  expires : Option String
deriving DecidableEq

/-- Status of a video processing job (`enum Status`). -/
inductive Status where
  | Pending : Status
  | Downloading : Status
  | Processing : Status
  | Complete : Status
  | Failed : Status
  | Unknown : Status
deriving DecidableEq

/-- Conversion `impl FromStr for Status` of `src/src/videobox/types.rs`
lines 44-58: only the six listed strings are recognized, everything else is
`Err(())`. -/
def Status.from_str (s : String) : Except Unit Status :=
  match s with
  | "pending" => .ok Status.Pending
  | "downloading" => .ok Status.Downloading
  | "processing" => .ok Status.Processing
  | "complete" => .ok Status.Complete
  | "failed" => .ok Status.Failed
  | "unknown" => .ok Status.Unknown
  | _ => .error ()

/-- Caller-facing domain value for a video. -/
structure Video where
  id : String
  status : Status
  download_total : Int
  download_complete : Int
  download_complete_estimate : String
  frames_count : Int
  frames_complete : Int
  last_frame_base64 : String
  milliseconds_complete : Int
  expires : String
deriving DecidableEq

/-- Conversion `impl Into<Result<Video>> for VideoResponse` of
`src/src/videobox/types.rs` lines 74-101.  The source computes
`Status::from_str(&st).unwrap()`, which panics when the status string is
not recognized; that panic is modelled by the `none` result. -/
def VideoResponse.intoResult (v : VideoResponse) : Option (MBResult Video) :=
  if v.success then
    let st := v.status.getD "unknown"
    match Status.from_str st with
    | .error _ => none
    | .ok stat =>
      some (.ok {
        id := v.id
        status := stat
        download_total := v.download_total.getD 0
        download_complete := v.download_complete.getD 0
        download_complete_estimate := v.download_complete_estimate.getD "unknown"
        frames_count := v.frames_count.getD 0
        frames_complete := v.frames_complete.getD 0
        last_frame_base64 := v.last_frame_base64.getD ""
        milliseconds_complete := v.milliseconds_complete.getD 0
        expires := v.expires.getD "" })
  else
    let s := match v.error with
      | some s => s
      | none => "Request failed"
    some (.error { kind := Kind.Machinebox s })

/-! ### Transport helpers (`src/src/utils.rs`)

An HTTP exchange's observable outcome is either a transport failure
(`Except.error`, carrying the underlying `reqwest::Error` as an opaque
string) or a response with a numeric status code and its body text.  Each
helper reproduces the corresponding function's status check and error
construction on that outcome; the single network round trip itself is
outside the embedding. -/

/-- An HTTP response as seen by the text-returning transport helpers. -/
structure HttpResponse where
  status : Nat
  body : String
deriving DecidableEq

/-- The one status code treated as success (`StatusCode::Ok`, 200). -/
def statusOk : Nat := 200

/-- Helper `post_form_vars` of `src/src/utils.rs` lines 33-54. -/
def post_form_vars (exchange : Except String HttpResponse) : MBResult String :=
  match exchange with
  | .ok response =>
    if response.status ≠ statusOk then
      .error { kind := Kind.Machinebox ("HTTP " ++ toString response.status ++ ": " ++ response.body) }
    else
      .ok response.body
  | .error e => .error { kind := Kind.Reqwest e }

/-- Helper `delete_with_response` of `src/src/utils.rs` lines 56-74. -/
def delete_with_response (exchange : Except String HttpResponse) : MBResult String :=
  match exchange with
  | .ok response =>
    if response.status ≠ statusOk then
      .error { kind := Kind.Machinebox ("HTTP " ++ toString response.status ++ ": " ++ response.body) }
    else
      .ok response.body
  | .error e => .error { kind := Kind.Reqwest e }

/-- Helper `patch_json` of `src/src/utils.rs` lines 76-97. -/
def patch_json (exchange : Except String HttpResponse) : MBResult String :=
  match exchange with
  | .ok response =>
    if response.status ≠ statusOk then
      .error { kind := Kind.Machinebox ("HTTP " ++ toString response.status ++ ": " ++ response.body) }
    else
      .ok response.body
  | .error e => .error { kind := Kind.Reqwest e }

/-- One part of a multipart form: a file part (carrying its data source)
or a plain text part. -/
inductive FormPart where
  | file (source : String) : FormPart
  | text (value : String) : FormPart
deriving DecidableEq

/-- A multipart form: named parts in submission order. -/
structure Form where
  parts : List (String × FormPart)
deriving DecidableEq

/-- Names of the file parts of a form. -/
def filePartNames (f : Form) : List String :=
  f.parts.filterMap fun kv =>
    match kv.2 with
    | FormPart.file _ => some kv.1
    | FormPart.text _ => none

/-- Helper `post_multipart` of `src/src/utils.rs` lines 99-117: the form is
submitted, the response handling is uniform with `post_form_vars`. -/
def post_multipart (_form : Form) (exchange : Except String HttpResponse) : MBResult String :=
  match exchange with
  | .ok response =>
    if response.status ≠ statusOk then
      .error { kind := Kind.Machinebox ("HTTP " ++ toString response.status ++ ": " ++ response.body) }
    else
      .ok response.body
  | .error e => .error { kind := Kind.Reqwest e }

/-- Form built by `post_multipart_reader` (`src/src/utils.rs` lines
119-123): a single file part named `"file"` streaming the reader. -/
def post_multipart_reader_form (reader : String) : Form :=
  { parts := [("file", FormPart.file reader)] }

/-- Helper `post_multipart_reader`. -/
def post_multipart_reader (reader : String)
    (exchange : Except String HttpResponse) : MBResult String :=
  post_multipart (post_multipart_reader_form reader) exchange

/-- Form built by `post_multipart_reader_parts` (`src/src/utils.rs` lines
125-133): the file part named `"file"` followed by one text part per
supplied key-value pair, appended in order by the source's loop. -/
def post_multipart_reader_parts_form (reader : String)
    (parts : List (String × String)) : Form :=
  { parts := parts.foldl (fun acc kv => acc ++ [(kv.1, FormPart.text kv.2)])
      [("file", FormPart.file reader)] }

/-- Helper `post_multipart_reader_parts`. -/
def post_multipart_reader_parts (reader : String) (parts : List (String × String))
    (exchange : Except String HttpResponse) : MBResult String :=
  post_multipart (post_multipart_reader_parts_form reader parts) exchange

/-- Form built by `post_multipart_file` (`src/src/utils.rs` lines 135-138):
`Form::new().file("file", source_path)`. -/
def post_multipart_file_form (source_path : String) : Form :=
  { parts := [("file", FormPart.file source_path)] }

/-- Helper `post_multipart_file`. -/
def post_multipart_file (source_path : String)
    (exchange : Except String HttpResponse) : MBResult String :=
  post_multipart (post_multipart_file_form source_path) exchange

/-- Helper `get_json` of `src/src/utils.rs` lines 140-158: on a non-OK
status the error message is the raw body alone, with no status code. -/
def get_json (exchange : Except String HttpResponse) : MBResult String :=
  match exchange with
  | .ok response =>
    if response.status = statusOk then
      .ok response.body
    else
      .error { kind := Kind.Machinebox response.body }
  | .error e => .error { kind := Kind.Reqwest e }

/-- Helper `post_json` of `src/src/utils.rs` lines 159-180: same non-OK
handling as `get_json`, body-only error message. -/
def post_json (exchange : Except String HttpResponse) : MBResult String :=
  match exchange with
  | .ok response =>
    if response.status = statusOk then
      .ok response.body
    else
      .error { kind := Kind.Machinebox response.body }
  | .error e => .error { kind := Kind.Reqwest e }

/-! ### Box-client operations needed by the claims -/

/-- Decode stage shared by the acknowledgement operations that do follow
the two-step protocol (for example `Facebox::post_state`,
`src/src/facebox/mod.rs` lines 126-131): parse the body as
`RawBoxResponse`, then convert via its `Into<Result<()>>`. -/
def Facebox.post_state_decode (j : Json) : MBResult Unit :=
  (from_str RawBoxResponse.fromJson j).bind RawBoxResponse.intoResult

/-- Operation `Videobox::delete` of `src/src/videobox/mod.rs` lines 52-57:
the body returned by `delete_with_response` is discarded (`let _ = ...?`)
and `Ok(())` is returned without any envelope parsing. -/
def Videobox.delete (exchange : Except String HttpResponse) : MBResult Unit :=
  match delete_with_response exchange with
  | .ok _ => .ok ()
  | .error e => .error e

/-- Operation `Suggestionbox::delete_model` of
`src/src/suggestionbox/mod.rs` lines 59-73: only the status code is
inspected; the body is never read and no envelope is parsed. -/
def Suggestionbox.delete_model (exchange : Except String HttpResponse) : MBResult Unit :=
  match exchange with
  | .ok response =>
    if response.status = statusOk then
      .ok ()
    else
      .error { kind := Kind.Machinebox ("HTTP " ++ toString response.status) }
  | .error e => .error { kind := Kind.Reqwest e }

/-- Operation `Suggestionbox::reward` of `src/src/suggestionbox/mod.rs`
lines 167-189: on an OK status the body is read but discarded and `Ok(())`
is returned without envelope parsing. -/
def Suggestionbox.reward (exchange : Except String HttpResponse) : MBResult Unit :=
  match exchange with
  | .ok response =>
    if response.status ≠ statusOk then
      .error { kind := Kind.Machinebox ("HTTP " ++ toString response.status ++ ": " ++ response.body) }
    else
      .ok ()
  | .error e => .error { kind := Kind.Reqwest e }

/-- Form built by `Suggestionbox::post_state` (`src/src/suggestionbox/mod.rs`
lines 214-234): `Form::new().file("state", source_path)` — the file part is
named `"state"`. -/
def Suggestionbox.post_state_form (source_path : String) : Form :=
  { parts := [("state", FormPart.file source_path)] }

/-! ### Blob download (`Facebox::download_state`, `Suggestionbox::download_state`)

The blob body is a byte sequence; the optional `contentLength` field
records a Content-Length header, which the code never consults.  The sink
is the written-byte accumulator of the caller-supplied `Write` target;
`copy_to` appends the body bytes to it and returns how many bytes were
copied. -/

/-- An HTTP response carrying an opaque byte body. -/
structure BlobResponse where
  status : Nat
  bytes : List Nat
  contentLength : Option Nat
deriving DecidableEq

/-- Reading a byte body as text (`resp.text()` on the failure path); byte
values are mapped to characters directly. -/
def bytesText (bs : List Nat) : String :=
  String.mk (bs.map fun b => Char.ofNat b)

/-- Operation `Facebox::download_state` of `src/src/facebox/mod.rs` lines
108-123: non-OK status fails with `"HTTP {status}: {body}"`; otherwise the
body is streamed into the sink and the byte count returned.  The result is
paired with the final sink contents. -/
def Facebox.download_state (exchange : Except String BlobResponse)
    (sink : List Nat) : MBResult Nat × List Nat :=
  match exchange with
  | .ok resp =>
    if resp.status ≠ statusOk then
      (.error { kind := Kind.Machinebox ("HTTP " ++ toString resp.status ++ ": " ++ bytesText resp.bytes) }, sink)
    else
      (.ok resp.bytes.length, sink ++ resp.bytes)
  | .error e => (.error { kind := Kind.Reqwest e }, sink)

/-- Operation `Suggestionbox::download_state` of
`src/src/suggestionbox/mod.rs` lines 195-210, line-for-line the same
behaviour as the facebox variant. -/
def Suggestionbox.download_state (exchange : Except String BlobResponse)
    (sink : List Nat) : MBResult Nat × List Nat :=
  match exchange with
  | .ok resp =>
    if resp.status ≠ statusOk then
      (.error { kind := Kind.Machinebox ("HTTP " ++ toString resp.status ++ ": " ++ bytesText resp.bytes) }, sink)
    else
      (.ok resp.bytes.length, sink ++ resp.bytes)
  | .error e => (.error { kind := Kind.Reqwest e }, sink)

/-! ### Shared `BoxClient` operations (`src/src/lib.rs`) -/

/-- Struct `BoxInfo`: `error` is the only optional field. -/
structure BoxInfo where
  success : Bool
  name : String
  version : Nat
  build : String
  status : String
  plan : String
  error : Option String
deriving DecidableEq

/-- Serde deserialization of `BoxInfo`. -/
def BoxInfo.fromJson : Json → Except String BoxInfo
  | Json.obj fields => do
    let s ← reqBoolField fields "success"
    let n ← reqStringField fields "name"
    let v ← reqNatField fields "version"
    let b ← reqStringField fields "build"
    let st ← reqStringField fields "status"
    let p ← reqStringField fields "plan"
    let e ← optStringField fields "error"
    pure { success := s, name := n, version := v, build := b,
           status := st, plan := p, error := e }
  | _ => .error "invalid type, expected object"

/-- Struct `BoxMetadata`. -/
structure BoxMetadata where
  boxname : String
  build : String
deriving DecidableEq

/-- Serde deserialization of `BoxMetadata`. -/
def BoxMetadata.fromJson : Json → Except String BoxMetadata
  | Json.obj fields => do
    let b ← reqStringField fields "boxname"
    let bu ← reqStringField fields "build"
    pure { boxname := b, build := bu }
  | _ => .error "invalid type, expected object"

/-- Struct `BoxError`. -/
structure BoxError where
  error : String
  description : String
deriving DecidableEq

/-- Serde deserialization of `BoxError`. -/
def BoxError.fromJson : Json → Except String BoxError
  | Json.obj fields => do
    let e ← reqStringField fields "error"
    let d ← reqStringField fields "description"
    pure { error := e, description := d }
  | _ => .error "invalid type, expected object"

/-- Struct `Health`: every field is mandatory, including the `errors` list. -/
structure Health where
  success : Bool
  hostname : String
  metadata : BoxMetadata
  errors : List BoxError
deriving DecidableEq

/-- Serde deserialization of `Health`. -/
def Health.fromJson : Json → Except String Health
  | Json.obj fields => do
    let s ← reqBoolField fields "success"
    let h ← reqStringField fields "hostname"
    let m ← (match fields.lookup "metadata" with
      | some j => BoxMetadata.fromJson j
      | none => .error "missing field metadata")
    let errs ← reqListField BoxError.fromJson fields "errors"
    pure { success := s, hostname := h, metadata := m, errors := errs }
  | _ => .error "invalid type, expected object"

/-- Operation `BoxClient::info` of `src/src/lib.rs` lines 126-138: the
response's status code is present but never consulted; the body is parsed
directly as `BoxInfo` and returned as a success value. -/
def BoxClient.info (exchange : Except String (Nat × Json)) : MBResult BoxInfo :=
  match exchange with
  | .ok result => from_str BoxInfo.fromJson result.2
  | .error e => .error { kind := Kind.Reqwest e }

/-- Operation `BoxClient::health` of `src/src/lib.rs` lines 141-153: same
shape as `info`, parsing the body as `Health`. -/
def BoxClient.health (exchange : Except String (Nat × Json)) : MBResult Health :=
  match exchange with
  | .ok result => from_str Health.fromJson result.2
  | .error e => .error { kind := Kind.Reqwest e }

/-- Operation `BoxClient::is_live` of `src/src/lib.rs` lines 156-164. -/
def BoxClient.is_live (exchange : Except String HttpResponse) : MBResult Bool :=
  match exchange with
  | .ok response => .ok (response.status == statusOk)
  | .error e => .error { kind := Kind.Reqwest e }

/-- Operation `BoxClient::is_ready` of `src/src/lib.rs` lines 168-176. -/
def BoxClient.is_ready (exchange : Except String HttpResponse) : MBResult Bool :=
  match exchange with
  | .ok response => .ok (response.status == statusOk)
  | .error e => .error { kind := Kind.Reqwest e }

/-! ### Substring containment

A small executable substring check, used to state that error messages
contain the status code and the body. -/

/-- Boolean test that the first character list starts the second. -/
def leadsWith : List Char → List Char → Bool
  | [], _ => true
  | _ :: _, [] => false
  | a :: as, b :: bs => a == b && leadsWith as bs

/-- Boolean test that the first character list occurs somewhere inside the
second. -/
def occursIn (pat : List Char) : List Char → Bool
  | [] => leadsWith pat []
  | c :: rest => leadsWith pat (c :: rest) || occursIn pat rest

/-- Boolean substring test on strings. -/
def strContains (hay pat : String) : Bool :=
  occursIn pat.data hay.data

/-- Appending strings is associative (stated here for rewriting error
messages into the shape of the containment lemmas). -/
theorem stringAppend_assoc (a b c : String) : (a ++ b) ++ c = a ++ (b ++ c) := by
  apply String.ext
  simp [String.data_append]

/-- A list starts with itself followed by anything. -/
theorem leadsWith_append (p t : List Char) : leadsWith p (p ++ t) = true := by
  induction p with
  | nil => rfl
  | cons a as ih => simp [leadsWith, ih]

/-- A list starts with itself. -/
theorem leadsWith_refl (p : List Char) : leadsWith p p = true := by
  simpa using leadsWith_append p []

/-- A pattern that starts a list occurs in it. -/
theorem occursIn_of_leadsWith (p l : List Char) (h : leadsWith p l = true) :
    occursIn p l = true := by
  cases l with
  | nil => simpa [occursIn] using h
  | cons c rest => simp [occursIn, h]

/-- Occurrence is preserved when material is appended on the left. -/
theorem occursIn_append_left (s l p : List Char) (h : occursIn p l = true) :
    occursIn p (s ++ l) = true := by
  induction s with
  | nil => simpa using h
  | cons c cs ih => simp [occursIn, ih]

/-- The middle of a three-part concatenation is a substring of it. -/
theorem strContains_mid (a b c : String) : strContains (a ++ b ++ c) b = true := by
  unfold strContains
  rw [String.data_append, String.data_append, List.append_assoc]
  exact occursIn_append_left a.data _ b.data
    (occursIn_of_leadsWith _ _ (leadsWith_append b.data c.data))

/-- The right half of a concatenation is a substring of it. -/
theorem strContains_right (a b : String) : strContains (a ++ b) b = true := by
  unfold strContains
  rw [String.data_append]
  exact occursIn_append_left a.data b.data b.data
    (occursIn_of_leadsWith _ _ (leadsWith_refl b.data))

/-- Folding text parts onto a form appends them in order. -/
theorem foldl_text_parts (parts : List (String × String)) (init : List (String × FormPart)) :
    parts.foldl (fun acc kv => acc ++ [(kv.1, FormPart.text kv.2)]) init
      = init ++ parts.map (fun kv => (kv.1, FormPart.text kv.2)) := by
  induction parts generalizing init with
  | nil => simp
  | cons hd tl ih => simp [List.foldl_cons, ih]

/-- Text parts contribute no file-part names. -/
theorem filePartNames_text_parts (fields : List (String × String)) :
    List.filterMap
      (fun kv : String × FormPart =>
        match kv.2 with
        | FormPart.file _ => some kv.1
        | FormPart.text _ => none)
      (fields.map fun kv => (kv.1, FormPart.text kv.2)) = [] := by
  induction fields with
  | nil => rfl
  | cons hd tl ih => simp [ih]

/-! ## Claims -/

/-- C1: for every envelope whose `success` flag is false, conversion returns
a Machinebox service error whose message equals the envelope's `error`
string when present and the literal "Request failed" when absent, and never
a domain value; checked for the generic acknowledgement envelope and the
facebox check envelope. -/
theorem c1_failure_envelopes_give_service_error
    (r : RawBoxResponse) (c : CheckResponseFull)
    (hr : r.success = false) (hc : c.success = false) :
    (∀ u, r.intoResult ≠ .ok u) ∧
    (∀ v, c.intoResult ≠ .ok v) ∧
    (∀ s, r.error = some s → r.intoResult = .error { kind := Kind.Machinebox s }) ∧
    (r.error = none → r.intoResult = .error { kind := Kind.Machinebox "Request failed" }) ∧
    (∀ s, c.error = some s → c.intoResult = .error { kind := Kind.Machinebox s }) ∧
    (c.error = none → c.intoResult = .error { kind := Kind.Machinebox "Request failed" }) := by
  refine ⟨?_, ?_, ?_, ?_, ?_, ?_⟩
  · intro u
    simp [RawBoxResponse.intoResult, hr]
  · intro v
    simp [CheckResponseFull.intoResult, hc]
  · intro s hs
    simp [RawBoxResponse.intoResult, hr, hs]
  · intro hn
    simp [RawBoxResponse.intoResult, hr, hn]
  · intro s hs
    simp [CheckResponseFull.intoResult, hc, hs]
  · intro hn
    simp [CheckResponseFull.intoResult, hc, hn]

/-- Witness for C1 at concrete failing envelopes. -/
theorem c1_failure_envelopes_give_service_error_witness :
    RawBoxResponse.intoResult { success := false, error := some "bad image" }
      = .error { kind := Kind.Machinebox "bad image" } ∧
    CheckResponseFull.intoResult { success := false, error := none, faces := [] }
      = .error { kind := Kind.Machinebox "Request failed" } := by
  have h := c1_failure_envelopes_give_service_error
    { success := false, error := some "bad image" }
    { success := false, error := none, faces := [] } rfl rfl
  exact ⟨h.2.2.1 "bad image" rfl, h.2.2.2.2.2 rfl⟩

/-- C2 counterexample: a videobox envelope with `success == true` and all
optional payload fields absent decodes `download_complete_estimate` (and the
status) to "unknown", not to the empty value the claim requires. -/
theorem c2_counterexample :
    VideoResponse.intoResult
      { success := true, error := none, id := "v1", status := none,
        download_total := none, download_complete := none,
        download_complete_estimate := none, frames_count := none,
        frames_complete := none, last_frame_base64 := none,
        milliseconds_complete := none, expires := none }
      = some (.ok
          { id := "v1", status := Status.Unknown, download_total := 0,
            download_complete := 0, download_complete_estimate := "unknown",
            frames_count := 0, frames_complete := 0, last_frame_base64 := "",
            milliseconds_complete := 0, expires := "" }) ∧
    ("unknown" : String) ≠ "" := by
  exact ⟨rfl, by decide⟩

/-- C2 (amended): for every envelope with `success == true`, decoding
returns a domain value built only from the payload fields (a populated
`error` is ignored) and never a service error; absent payload fields default
per field-level optionality — empty list, zero or empty string for most
fields, but videobox defaults absent `status` and
`download_complete_estimate` to "unknown" — and the videobox conversion
panics, rather than returning, when the status string is unrecognized. -/
theorem c2_success_envelopes_decode_to_domain_values
    (c : CheckResponseFull) (v : VideoResponse)
    (hc : c.success = true) (hv : v.success = true) :
    c.intoResult = .ok { faces := c.faces } ∧
    (∀ e, v.intoResult ≠ some (.error e)) ∧
    (Status.from_str (v.status.getD "unknown") = .error () → v.intoResult = none) ∧
    VideoResponse.intoResult
      { success := true, error := some "ignored", id := v.id, status := none,
        download_total := none, download_complete := none,
        download_complete_estimate := none, frames_count := none,
        frames_complete := none, last_frame_base64 := none,
        milliseconds_complete := none, expires := none }
      = some (.ok
          { id := v.id, status := Status.Unknown, download_total := 0,
            download_complete := 0, download_complete_estimate := "unknown",
            frames_count := 0, frames_complete := 0, last_frame_base64 := "",
            milliseconds_complete := 0, expires := "" }) := by
  refine ⟨?_, ?_, ?_, rfl⟩
  · simp [CheckResponseFull.intoResult, hc]
  · intro e
    simp only [VideoResponse.intoResult, hv, if_true]
    cases h : Status.from_str (v.status.getD "unknown") <;> simp
  · intro h
    simp [VideoResponse.intoResult, hv, h]

/-- Witness for C2 (amended) at concrete successful envelopes. -/
theorem c2_success_envelopes_decode_to_domain_values_witness :
    CheckResponseFull.intoResult { success := true, error := some "ignored", faces := [] }
      = .ok { faces := [] } := by
  exact (c2_success_envelopes_decode_to_domain_values
    { success := true, error := some "ignored", faces := [] }
    { success := true, error := none, id := "v1", status := some "complete",
      download_total := none, download_complete := none,
      download_complete_estimate := none, frames_count := none,
      frames_complete := none, last_frame_base64 := none,
      milliseconds_complete := none, expires := none } rfl rfl).1

/-- C3 counterexample: the GET helper's service error for a 404 response
with body "oops" is the raw body alone and does not contain the status
code, refuting the claim that every transport helper embeds both. -/
theorem c3_counterexample :
    get_json (.ok { status := 404, body := "oops" })
      = .error { kind := Kind.Machinebox "oops" } ∧
    toString (404 : Nat) = "404" ∧
    strContains "oops" "404" = false := by
  exact ⟨rfl, rfl, by decide⟩

/-- C3 (amended): on a non-OK status the form-POST, JSON-PATCH, DELETE and
multipart helpers return a service error "HTTP status: body" containing both
the status code and the raw body, while the GET and JSON-POST helpers return
a service error whose message is the raw body only, without the status. -/
theorem c3_transport_helper_error_messages
    (r : HttpResponse) (h : r.status ≠ statusOk) :
    post_form_vars (.ok r)
      = .error { kind := Kind.Machinebox ("HTTP " ++ toString r.status ++ (": " ++ r.body)) } ∧
    delete_with_response (.ok r)
      = .error { kind := Kind.Machinebox ("HTTP " ++ toString r.status ++ (": " ++ r.body)) } ∧
    patch_json (.ok r)
      = .error { kind := Kind.Machinebox ("HTTP " ++ toString r.status ++ (": " ++ r.body)) } ∧
    (∀ f, post_multipart f (.ok r)
      = .error { kind := Kind.Machinebox ("HTTP " ++ toString r.status ++ (": " ++ r.body)) }) ∧
    get_json (.ok r) = .error { kind := Kind.Machinebox r.body } ∧
    post_json (.ok r) = .error { kind := Kind.Machinebox r.body } ∧
    strContains ("HTTP " ++ toString r.status ++ (": " ++ r.body)) (toString r.status) = true ∧
    strContains ("HTTP " ++ toString r.status ++ (": " ++ r.body)) r.body = true := by
  refine ⟨?_, ?_, ?_, ?_, ?_, ?_, ?_, ?_⟩
  · simp [post_form_vars, h, stringAppend_assoc]
  · simp [delete_with_response, h, stringAppend_assoc]
  · simp [patch_json, h, stringAppend_assoc]
  · intro f
    simp [post_multipart, h, stringAppend_assoc]
  · simp [get_json, h]
  · simp [post_json, h]
  · exact strContains_mid "HTTP " (toString r.status) (": " ++ r.body)
  · rw [← stringAppend_assoc ("HTTP " ++ toString r.status) ": " r.body]
    exact strContains_right _ r.body

/-- Witness for C3 (amended) at a concrete 404 response. -/
theorem c3_transport_helper_error_messages_witness :
    post_form_vars (.ok { status := 404, body := "oops" })
      = .error { kind := Kind.Machinebox "HTTP 404: oops" } ∧
    post_json (.ok { status := 404, body := "oops" })
      = .error { kind := Kind.Machinebox "oops" } := by
  have h := c3_transport_helper_error_messages { status := 404, body := "oops" } (by decide)
  exact ⟨h.1, h.2.2.2.2.2.1⟩

/-- C4: at the failing input — a videobox envelope carrying `success ==
true` and the unrecognized status string "bogus" — the conversion to `Video`
panics (the `none` result models the `unwrap` of `Status::from_str`'s error)
instead of returning a domain value or a typed error. -/
theorem c4_videobox_status_conversion_panics :
    Status.from_str "bogus" = .error () ∧
    VideoResponse.intoResult
      { success := true, error := none, id := "abc", status := some "bogus",
        download_total := none, download_complete := none,
        download_complete_estimate := none, frames_count := none,
        frames_complete := none, last_frame_base64 := none,
        milliseconds_complete := none, expires := none } = none := by
  exact ⟨rfl, rfl⟩

/-- C5 counterexample: the state-blob upload of the suggestionbox names its
single file part "state", not "file", refuting the claim that every
multipart upload's file part is named "file". -/
theorem c5_counterexample :
    filePartNames (Suggestionbox.post_state_form "model.dat") = ["state"] ∧
    ("state" : String) ≠ "file" := by
  exact ⟨rfl, by decide⟩

/-- C5 (amended): every multipart upload built by the shared helpers
(check/teach/similar uploads and the facebox/tagbox state uploads) has its
single file part named "file", with any extra fields as plain text parts
named per-operation; the suggestionbox state upload instead names its file
part "state". -/
theorem c5_multipart_file_part_names (reader path : String)
    (fields : List (String × String)) :
    (post_multipart_reader_form reader).parts = [("file", FormPart.file reader)] ∧
    (post_multipart_reader_parts_form reader fields).parts
      = ("file", FormPart.file reader) :: fields.map (fun kv => (kv.1, FormPart.text kv.2)) ∧
    (post_multipart_file_form path).parts = [("file", FormPart.file path)] ∧
    filePartNames (post_multipart_reader_parts_form reader fields) = ["file"] ∧
    (Suggestionbox.post_state_form path).parts = [("state", FormPart.file path)] := by
  refine ⟨rfl, ?_, rfl, ?_, rfl⟩
  · simp [post_multipart_reader_parts_form, foldl_text_parts]
  · simp [filePartNames, post_multipart_reader_parts_form, foldl_text_parts,
      filePartNames_text_parts]

/-- C6 counterexample: a video result deletion whose 200-status body is the
rendering of an envelope with `success == false` still returns success,
while the uniform two-step protocol on that same envelope yields a service
error — so the operation returns success without checking the flag. -/
theorem c6_counterexample :
    (Json.obj [("success", Json.bool false), ("error", Json.str "nope")]).render
      = "\x7b\"success\":false,\"error\":\"nope\"\x7d" ∧
    Videobox.delete
        (.ok { status := 200, body := "\x7b\"success\":false,\"error\":\"nope\"\x7d" })
      = .ok () ∧
    Facebox.post_state_decode
        (Json.obj [("success", Json.bool false), ("error", Json.str "nope")])
      = .error { kind := Kind.Machinebox "nope" } := by
  exact ⟨rfl, rfl, rfl⟩

/-- C6 (amended): the operations that decode payloads (face/tag check,
similar, teach/remove/rename acknowledgements, video check/status/results,
state uploads) apply the uniform parse-then-interpret protocol, but video
result deletion, model deletion and reward submission return success from
the HTTP status alone: on an OK status they succeed for every body, without
parsing an envelope or checking any `success` flag. -/
theorem c6_ack_operations_skip_envelope
    (body : String) (j : Json) (e : Option String)
    (hj : RawBoxResponse.fromJson j = .ok { success := false, error := e }) :
    Videobox.delete (.ok { status := 200, body := body }) = .ok () ∧
    Suggestionbox.reward (.ok { status := 200, body := body }) = .ok () ∧
    Suggestionbox.delete_model (.ok { status := 200, body := body }) = .ok () ∧
    Facebox.post_state_decode j
      = .error { kind := Kind.Machinebox (e.getD "Request failed") } := by
  refine ⟨rfl, rfl, rfl, ?_⟩
  simp only [Facebox.post_state_decode, from_str, hj]
  cases e <;> simp [RawBoxResponse.intoResult, Except.bind, Option.getD]

/-- Witness for C6 (amended): the three status-only operations accept a
concrete `success == false` body that the protocol itself rejects. -/
theorem c6_ack_operations_skip_envelope_witness :
    Videobox.delete (.ok { status := 200, body := "\x7b\"success\":false\x7d" }) = .ok () ∧
    Suggestionbox.reward (.ok { status := 200, body := "\x7b\"success\":false\x7d" }) = .ok () ∧
    Suggestionbox.delete_model (.ok { status := 200, body := "\x7b\"success\":false\x7d" })
      = .ok () ∧
    Facebox.post_state_decode (Json.obj [("success", Json.bool false)])
      = .error { kind := Kind.Machinebox "Request failed" } := by
  exact c6_ack_operations_skip_envelope "\x7b\"success\":false\x7d"
    (Json.obj [("success", Json.bool false)]) none rfl

/-- C7: a blob download with an OK status writes exactly the body's bytes to
the sink and returns exactly their count, independent of the Content-Length
header; a non-OK status yields a service error carrying the status and the
body text. -/
theorem c7_download_state_byte_exact
    (b : BlobResponse) (sink : List Nat) (hok : b.status = statusOk)
    (r : BlobResponse) (hbad : r.status ≠ statusOk) :
    Facebox.download_state (.ok b) sink = (.ok b.bytes.length, sink ++ b.bytes) ∧
    Suggestionbox.download_state (.ok b) sink = (.ok b.bytes.length, sink ++ b.bytes) ∧
    (∀ cl,
      Facebox.download_state (.ok { status := b.status, bytes := b.bytes, contentLength := cl })
          sink
        = Facebox.download_state (.ok b) sink) ∧
    Facebox.download_state (.ok r) sink
      = (.error
          { kind := Kind.Machinebox ("HTTP " ++ toString r.status ++ (": " ++ bytesText r.bytes)) },
         sink) ∧
    Suggestionbox.download_state (.ok r) sink
      = (.error
          { kind := Kind.Machinebox ("HTTP " ++ toString r.status ++ (": " ++ bytesText r.bytes)) },
         sink) ∧
    strContains ("HTTP " ++ toString r.status ++ (": " ++ bytesText r.bytes))
      (toString r.status) = true ∧
    strContains ("HTTP " ++ toString r.status ++ (": " ++ bytesText r.bytes))
      (bytesText r.bytes) = true := by
  refine ⟨?_, ?_, ?_, ?_, ?_, ?_, ?_⟩
  · simp [Facebox.download_state, hok]
  · simp [Suggestionbox.download_state, hok]
  · intro cl
    simp [Facebox.download_state, hok]
  · simp [Facebox.download_state, hbad, stringAppend_assoc]
  · simp [Suggestionbox.download_state, hbad, stringAppend_assoc]
  · exact strContains_mid "HTTP " (toString r.status) (": " ++ bytesText r.bytes)
  · rw [← stringAppend_assoc ("HTTP " ++ toString r.status) ": " (bytesText r.bytes)]
    exact strContains_right _ (bytesText r.bytes)

/-- Witness for C7: the ten-byte body "1234512345" downloads with byte count
ten and lands in the sink; a 404 with body "not found" fails with both in
the message. -/
theorem c7_download_state_byte_exact_witness :
    Facebox.download_state
        (.ok
          { status := 200, bytes := [49, 50, 51, 52, 53, 49, 50, 51, 52, 53],
            contentLength := some 3 }) []
      = (.ok 10, [49, 50, 51, 52, 53, 49, 50, 51, 52, 53]) ∧
    Facebox.download_state
        (.ok
          { status := 404, bytes := [110, 111, 116, 32, 102, 111, 117, 110, 100],
            contentLength := none }) []
      = (.error { kind := Kind.Machinebox "HTTP 404: not found" }, []) := by
  have h := c7_download_state_byte_exact
    { status := 200, bytes := [49, 50, 51, 52, 53, 49, 50, 51, 52, 53],
      contentLength := some 3 } [] rfl
    { status := 404, bytes := [110, 111, 116, 32, 102, 111, 117, 110, 100],
      contentLength := none } (by decide)
  exact ⟨h.1, h.2.2.2.1⟩

/-- C8: any JSON object without a "success" field fails envelope decoding
with a decode (`Serialization`) error — never a service error, never a
domain value — for both the generic acknowledgement shape and the facebox
similar shape; when `success` is present, the `error` and payload fields
may be absent and default. -/
theorem c8_missing_success_is_decode_error
    (fields : List (String × Json)) (h : fields.lookup "success" = none) :
    from_str RawBoxResponse.fromJson (Json.obj fields)
      = .error { kind := Kind.Serialization ("missing field " ++ "success") } ∧
    from_str SimilarResponseFull.fromJson (Json.obj fields)
      = .error { kind := Kind.Serialization ("missing field " ++ "success") } ∧
    from_str RawBoxResponse.fromJson (Json.obj [("success", Json.bool true)])
      = .ok { success := true, error := none } ∧
    from_str SimilarResponseFull.fromJson (Json.obj [("success", Json.bool true)])
      = .ok { success := true, error := none, similar := [] } := by
  refine ⟨?_, ?_, rfl, rfl⟩
  · simp only [from_str, RawBoxResponse.fromJson, reqBoolField, h]
    rfl
  · simp only [from_str, SimilarResponseFull.fromJson, reqBoolField, h]
    rfl

/-- Witness for C8 at a concrete envelope lacking "success". -/
theorem c8_missing_success_is_decode_error_witness :
    from_str RawBoxResponse.fromJson (Json.obj [("error", Json.str "nope")])
      = .error { kind := Kind.Serialization ("missing field " ++ "success") } := by
  exact (c8_missing_success_is_decode_error [("error", Json.str "nope")] rfl).1

/-- C9: `info` and `health` return whatever the body parses to, for every
HTTP status code and regardless of the body's `success` flag; a body with
`success == false` still yields `Ok`, bypassing the envelope rule. -/
theorem c9_info_health_ignore_status_and_flag
    (st st2 : Nat) (body body2 : Json) (bi : BoxInfo) (he : Health)
    (hbi : BoxInfo.fromJson body = .ok bi)
    (hhe : Health.fromJson body2 = .ok he) :
    BoxClient.info (.ok (st, body)) = .ok bi ∧
    BoxClient.health (.ok (st2, body2)) = .ok he ∧
    BoxClient.info (.ok (500,
        Json.obj [("success", Json.bool false), ("name", Json.str "tagbox"),
          ("version", Json.num 1), ("build", Json.str "27d1d38"),
          ("status", Json.str "down"), ("plan", Json.str "pro"),
          ("error", Json.str "broken")]))
      = .ok { success := false, name := "tagbox", version := 1, build := "27d1d38",
              status := "down", plan := "pro", error := some "broken" } ∧
    BoxClient.health (.ok (503,
        Json.obj [("success", Json.bool false), ("hostname", Json.str "h1"),
          ("metadata", Json.obj [("boxname", Json.str "facebox"), ("build", Json.str "18f2361")]),
          ("errors", Json.arr [Json.obj [("error", Json.str "bad"),
            ("description", Json.str "broken")]])]))
      = .ok { success := false, hostname := "h1",
              metadata := { boxname := "facebox", build := "18f2361" },
              errors := [{ error := "bad", description := "broken" }] } := by
  refine ⟨?_, ?_, rfl, rfl⟩
  · simp [BoxClient.info, from_str, hbi]
  · simp [BoxClient.health, from_str, hhe]

/-- Witness for C9 at a concrete parsed body. -/
theorem c9_info_health_ignore_status_and_flag_witness :
    BoxClient.info (.ok (404, Json.obj [("success", Json.bool false),
        ("name", Json.str "t"), ("version", Json.num 1), ("build", Json.str "b"),
        ("status", Json.str "s"), ("plan", Json.str "p")]))
      = .ok { success := false, name := "t", version := 1, build := "b",
              status := "s", plan := "p", error := none } := by
  exact (c9_info_health_ignore_status_and_flag 404 200
    (Json.obj [("success", Json.bool false), ("name", Json.str "t"),
      ("version", Json.num 1), ("build", Json.str "b"),
      ("status", Json.str "s"), ("plan", Json.str "p")])
    (Json.obj [("success", Json.bool true), ("hostname", Json.str "h"),
      ("metadata", Json.obj [("boxname", Json.str "f"), ("build", Json.str "b")]),
      ("errors", Json.arr [])])
    { success := false, name := "t", version := 1, build := "b",
      status := "s", plan := "p", error := none }
    { success := true, hostname := "h",
      metadata := { boxname := "f", build := "b" }, errors := [] }
    rfl rfl).1

/-- C10: `is_live` and `is_ready` answer `Ok(status == OK)` for every
completed exchange — `Ok true` exactly at status 200, `Ok false` otherwise —
and fail only with a transport (`Reqwest`) error, never a decode or service
error. -/
theorem c10_liveness_is_status_only
    (r : HttpResponse) (e : String) :
    BoxClient.is_live (.ok r) = .ok (r.status == statusOk) ∧
    BoxClient.is_ready (.ok r) = .ok (r.status == statusOk) ∧
    (r.status = statusOk →
      BoxClient.is_live (.ok r) = .ok true ∧ BoxClient.is_ready (.ok r) = .ok true) ∧
    (r.status ≠ statusOk →
      BoxClient.is_live (.ok r) = .ok false ∧ BoxClient.is_ready (.ok r) = .ok false) ∧
    BoxClient.is_live (.error e) = .error { kind := Kind.Reqwest e } ∧
    BoxClient.is_ready (.error e) = .error { kind := Kind.Reqwest e } ∧
    (∀ ex err, BoxClient.is_live ex = .error err → ∃ msg, err.kind = Kind.Reqwest msg) ∧
    (∀ ex err, BoxClient.is_ready ex = .error err → ∃ msg, err.kind = Kind.Reqwest msg) := by
  refine ⟨rfl, rfl, ?_, ?_, rfl, rfl, ?_, ?_⟩
  · intro h
    simp [BoxClient.is_live, BoxClient.is_ready, h]
  · intro h
    simp [BoxClient.is_live, BoxClient.is_ready, h]
  · intro ex err hx
    cases ex with
    | ok resp => simp [BoxClient.is_live] at hx
    | error e2 =>
      simp only [BoxClient.is_live, Except.error.injEq] at hx
      exact ⟨e2, by rw [← hx]⟩
  · intro ex err hx
    cases ex with
    | ok resp => simp [BoxClient.is_ready] at hx
    | error e2 =>
      simp only [BoxClient.is_ready, Except.error.injEq] at hx
      exact ⟨e2, by rw [← hx]⟩

/-- Witness for C10 at a concrete 200 response and a transport failure. -/
theorem c10_liveness_is_status_only_witness :
    BoxClient.is_live (.ok { status := 200, body := "" }) = .ok true ∧
    BoxClient.is_ready (.error "connection refused")
      = .error { kind := Kind.Reqwest "connection refused" } := by
  have h := c10_liveness_is_status_only { status := 200, body := "" } "connection refused"
  exact ⟨(h.2.2.1 rfl).1, h.2.2.2.2.2.1⟩
